import Mathlib

/-!
Shallow embedding of the betting-edge and bankroll-simulation engine of
`src/nhl_prediction/betting.py`, together with theorems settling the
specification claims about it.

Numbers are modelled as exact rationals (`ℚ`).  Where a claim is about
division-by-zero failure, a second embedding over `Except String` models
the `ZeroDivisionError` flow explicitly (definitions with an `E` suffix).
A missing value inside a `DataFrame` row is `NaN`; such values are
modelled as `Option ℚ` with `none` for `NaN`, mirroring IEEE semantics:
arithmetic propagates `NaN` and every comparison against `NaN` is false
(definitions with an `N` suffix).
-/

namespace NhlBetting

/-- Embeds `american_to_probability` (betting.py lines 11–33):
convert American odds to implied probability. -/
def american_to_probability (odds : ℚ) : ℚ :=
  if odds < 0 then
    |odds| / (|odds| + 100)
  else
    100 / (odds + 100)

/-- Division with Python semantics: dividing by zero raises
`ZeroDivisionError` instead of returning a value. -/
def divE (a b : ℚ) : Except String ℚ :=
  if b = 0 then Except.error "ZeroDivisionError" else Except.ok (a / b)

/-- Embeds `american_to_probability` with the exception flow of the Python
interpreter made explicit: each division is checked for a zero
denominator. -/
def american_to_probabilityE (odds : ℚ) : Except String ℚ :=
  if odds < 0 then
    divE |odds| (|odds| + 100)
  else
    divE 100 (odds + 100)

/-- Embeds `remove_vig_proportional` (betting.py lines 36–57):
scale both probabilities by their sum. -/
def remove_vig_proportional (prob_home prob_away : ℚ) : ℚ × ℚ :=
  let total := prob_home + prob_away
  let true_prob_home := prob_home / total
  let true_prob_away := prob_away / total
  (true_prob_home, true_prob_away)

/-- Embeds `calculate_payout` (betting.py lines 98–121): signed profit of
a settled bet at American odds. -/
def calculate_payout (bet_amount odds : ℚ) (won : Bool) : ℚ :=
  if !won then
    -bet_amount
  else if odds < 0 then
    bet_amount * (100 / |odds|)
  else
    bet_amount * (odds / 100)

/-- Embeds `kelly_criterion` (betting.py lines 124–156): Kelly-optimal
bankroll fraction, floored at zero. -/
def kelly_criterion (model_prob odds : ℚ) : ℚ :=
  let decimal_odds := if odds < 0 then 1 + (100 / |odds|) else 1 + (odds / 100)
  let b := decimal_odds - 1
  let p := model_prob
  let q := 1 - p
  let kelly_frac := (p * b - q) / b
  max 0 kelly_frac

/-- Game-Odds Record: one row of the `games_df` input of the simulators.
The `game_id` column is optional in the source (`game.get('game_id', idx)`),
hence `Option`. -/
structure Game where
  game_id : Option ℚ
  home_odds : ℚ
  away_odds : ℚ
  model_prob_home : ℚ
  market_prob_home : ℚ
  home_win : ℚ
deriving Repr, DecidableEq

/-- Bet Record appended by `simulate_threshold_betting` (betting.py
lines 211–222). -/
structure ThresholdBet where
  game_id : ℚ
  bet_on : String
  edge : ℚ
  model_prob : ℚ
  market_prob : ℚ
  odds : ℚ
  bet_size : ℚ
  outcome : String
  profit : ℚ
  cumulative_profit : ℚ
deriving Repr, DecidableEq

/-- Bet Record appended by `simulate_kelly_betting` (betting.py
lines 283–295). -/
structure KellyBet where
  game_id : ℚ
  bet_on : String
  edge : ℚ
  model_prob : ℚ
  market_prob : ℚ
  odds : ℚ
  bet_size : ℚ
  outcome : String
  profit : ℚ
  bankroll : ℚ
  roi : ℚ
deriving Repr, DecidableEq

/-- Body of the per-game loop of `simulate_threshold_betting` (betting.py
lines 189–222): given the current bankroll and the row index, returns the
Bet Record appended for this game (if any) and the updated bankroll. -/
def thresholdStep (edge_threshold bet_size : ℚ) (idx : ℕ) (bankroll : ℚ)
    (game : Game) : Option ThresholdBet × ℚ :=
  let edge_home := game.model_prob_home - game.market_prob_home
  let edge_away := (1 - game.model_prob_home) - (1 - game.market_prob_home)
  if edge_threshold ≤ edge_home then
    let won := game.home_win == 1
    let profit := calculate_payout bet_size game.home_odds won
    let bankroll2 := bankroll + profit
    (some { game_id := game.game_id.getD (idx : ℚ), bet_on := "home",
            edge := edge_home, model_prob := game.model_prob_home,
            market_prob := game.market_prob_home, odds := game.home_odds,
            bet_size := bet_size,
            outcome := if 0 < profit then "win" else "loss",
            profit := profit, cumulative_profit := bankroll2 }, bankroll2)
  else if edge_threshold ≤ edge_away then
    let won := game.home_win == 0
    let profit := calculate_payout bet_size game.away_odds won
    let bankroll2 := bankroll + profit
    (some { game_id := game.game_id.getD (idx : ℚ), bet_on := "away",
            edge := edge_away, model_prob := 1 - game.model_prob_home,
            market_prob := 1 - game.market_prob_home, odds := game.away_odds,
            bet_size := bet_size,
            outcome := if 0 < profit then "win" else "loss",
            profit := profit, cumulative_profit := bankroll2 }, bankroll2)
  else
    (none, bankroll)

/-- The `for idx, game in games_df.iterrows()` loop of
`simulate_threshold_betting`, threading the row index and the bankroll. -/
def simulate_threshold_go (edge_threshold bet_size : ℚ) :
    List Game → ℕ → ℚ → List ThresholdBet × ℚ
  | [], _, bankroll => ([], bankroll)
  | game :: rest, idx, bankroll =>
    match thresholdStep edge_threshold bet_size idx bankroll game with
    | (some r, bankroll2) =>
      let tail := simulate_threshold_go edge_threshold bet_size rest (idx + 1) bankroll2
      (r :: tail.1, tail.2)
    | (none, bankroll2) =>
      simulate_threshold_go edge_threshold bet_size rest (idx + 1) bankroll2

/-- Embeds `simulate_threshold_betting` (betting.py lines 159–224):
fixed-stake betting whenever the model-vs-market edge reaches
`edge_threshold`; the bankroll starts at `0.0`. -/
def simulate_threshold_betting (games : List Game)
    (edge_threshold bet_size : ℚ) :
    List ThresholdBet × ℚ :=
  simulate_threshold_go edge_threshold bet_size games 0 0

/-- Body of the per-game loop of `simulate_kelly_betting` (betting.py
lines 252–295).  A side is selected only when its edge is strictly
positive and the computed stake reaches the $1 minimum; the final
`if bet_placed and bet_size > 0` guard of the source is the inner
`0 < bet_size` test. -/
def kellyStep (kelly_fraction starting_bankroll : ℚ) (idx : ℕ) (bankroll : ℚ)
    (game : Game) : Option KellyBet × ℚ :=
  let edge_home := game.model_prob_home - game.market_prob_home
  let edge_away := (1 - game.model_prob_home) - (1 - game.market_prob_home)
  if 0 < edge_home then
    let kelly := kelly_criterion game.model_prob_home game.home_odds
    let bet_size := bankroll * kelly * kelly_fraction
    if 1 ≤ bet_size then
      if 0 < bet_size then
        let won := game.home_win == 1
        let profit := calculate_payout bet_size game.home_odds won
        let bankroll2 := bankroll + profit
        (some { game_id := game.game_id.getD (idx : ℚ), bet_on := "home",
                edge := edge_home, model_prob := game.model_prob_home,
                market_prob := game.market_prob_home, odds := game.home_odds,
                bet_size := bet_size,
                outcome := if 0 < profit then "win" else "loss",
                profit := profit, bankroll := bankroll2,
                roi := ((bankroll2 - starting_bankroll) / starting_bankroll) * 100 },
         bankroll2)
      else (none, bankroll)
    else (none, bankroll)
  else if 0 < edge_away then
    let kelly := kelly_criterion (1 - game.model_prob_home) game.away_odds
    let bet_size := bankroll * kelly * kelly_fraction
    if 1 ≤ bet_size then
      if 0 < bet_size then
        let won := game.home_win == 0
        let profit := calculate_payout bet_size game.away_odds won
        let bankroll2 := bankroll + profit
        (some { game_id := game.game_id.getD (idx : ℚ), bet_on := "away",
                edge := edge_away, model_prob := 1 - game.model_prob_home,
                market_prob := 1 - game.market_prob_home, odds := game.away_odds,
                bet_size := bet_size,
                outcome := if 0 < profit then "win" else "loss",
                profit := profit, bankroll := bankroll2,
                roi := ((bankroll2 - starting_bankroll) / starting_bankroll) * 100 },
         bankroll2)
      else (none, bankroll)
    else (none, bankroll)
  else (none, bankroll)

/-- The per-game loop of `simulate_kelly_betting`, threading the row index
and the bankroll. -/
def simulate_kelly_go (kelly_fraction starting_bankroll : ℚ) :
    List Game → ℕ → ℚ → List KellyBet × ℚ
  | [], _, bankroll => ([], bankroll)
  | game :: rest, idx, bankroll =>
    match kellyStep kelly_fraction starting_bankroll idx bankroll game with
    | (some r, bankroll2) =>
      let tail := simulate_kelly_go kelly_fraction starting_bankroll rest (idx + 1) bankroll2
      (r :: tail.1, tail.2)
    | (none, bankroll2) =>
      simulate_kelly_go kelly_fraction starting_bankroll rest (idx + 1) bankroll2

/-- Embeds `simulate_kelly_betting` (betting.py lines 227–297):
fractional-Kelly betting starting from `starting_bankroll`. -/
def simulate_kelly_betting (games : List Game)
    (kelly_fraction starting_bankroll : ℚ) :
    List KellyBet × ℚ :=
  simulate_kelly_go kelly_fraction starting_bankroll games 0 starting_bankroll

/-- Subtraction on possibly-`NaN` values: `NaN` propagates through
arithmetic, exactly as in the row expressions
`game['model_prob_home'] - game['market_prob_home']` when a field is
missing. -/
def nanSub (a b : Option ℚ) : Option ℚ :=
  match a with
  | none => none
  | some x =>
    match b with
    | none => none
    | some y => some (x - y)

/-- Addition on possibly-`NaN` values, propagating `NaN`. -/
def nanAdd (a b : Option ℚ) : Option ℚ :=
  match a with
  | none => none
  | some x =>
    match b with
    | none => none
    | some y => some (x + y)

/-- The comparison `a >= c` on a possibly-`NaN` left operand: every
comparison against `NaN` is false, so a missing edge never clears the
threshold. -/
def nanGe (a : Option ℚ) (c : ℚ) : Bool :=
  match a with
  | none => false
  | some x => decide (c ≤ x)

/-- The comparison `a == c` on a possibly-`NaN` left operand: false when
the value is missing (`NaN == 1` is false). -/
def nanEq (a : Option ℚ) (c : ℚ) : Bool :=
  match a with
  | none => false
  | some x => x == c

/-- The comparison `0 < a` on a possibly-`NaN` operand: false when the
value is missing, so a `NaN` profit is recorded as `"loss"`. -/
def nanPos (a : Option ℚ) : Bool :=
  match a with
  | none => false
  | some x => decide (0 < x)

/-- `calculate_payout` lifted to possibly-`NaN` odds: a lost bet never
reads the odds and returns `-stake`; a won bet at `NaN` odds takes the
`odds < 0 = False` branch and computes `stake * (NaN/100) = NaN`. -/
def calculate_payoutN (bet_amount : ℚ) (odds : Option ℚ) (won : Bool) : Option ℚ :=
  if !won then
    some (-bet_amount)
  else
    match odds with
    | none => none
    | some o =>
      if o < 0 then some (bet_amount * (100 / |o|))
      else some (bet_amount * (o / 100))

/-- Game-Odds Record as a `DataFrame` row whose numeric fields may be
missing: a pandas row always carries the frame's full column set, and a
missing value is `NaN` (`none`).  `game_id` keeps the source's
`game.get('game_id', idx)` fallback. -/
structure NanGame where
  game_id : Option ℚ
  home_odds : Option ℚ
  away_odds : Option ℚ
  model_prob_home : Option ℚ
  market_prob_home : Option ℚ
  home_win : Option ℚ
deriving Repr, DecidableEq

/-- Bet Record of the threshold simulator over rows with possibly-`NaN`
fields: the copied-through numeric fields may be `NaN`. -/
structure NanBet where
  game_id : ℚ
  bet_on : String
  edge : Option ℚ
  model_prob : Option ℚ
  market_prob : Option ℚ
  odds : Option ℚ
  bet_size : ℚ
  outcome : String
  profit : Option ℚ
  cumulative_profit : Option ℚ
deriving Repr, DecidableEq

/-- The per-game loop body of `simulate_threshold_betting` over a row
with possibly-`NaN` fields: identical branch structure to
`thresholdStep`, with `NaN`-aware arithmetic and comparisons.  A missing
probability makes both edge comparisons false, so the game is skipped
with no record and no report of any kind. -/
def thresholdStepN (edge_threshold bet_size : ℚ) (idx : ℕ) (bankroll : Option ℚ)
    (game : NanGame) : Option NanBet × Option ℚ :=
  let edge_home := nanSub game.model_prob_home game.market_prob_home
  let edge_away := nanSub (nanSub (some 1) game.model_prob_home)
                          (nanSub (some 1) game.market_prob_home)
  if nanGe edge_home edge_threshold then
    let won := nanEq game.home_win 1
    let profit := calculate_payoutN bet_size game.home_odds won
    let bankroll2 := nanAdd bankroll profit
    (some { game_id := game.game_id.getD (idx : ℚ), bet_on := "home",
            edge := edge_home, model_prob := game.model_prob_home,
            market_prob := game.market_prob_home, odds := game.home_odds,
            bet_size := bet_size,
            outcome := if nanPos profit then "win" else "loss",
            profit := profit, cumulative_profit := bankroll2 }, bankroll2)
  else if nanGe edge_away edge_threshold then
    let won := nanEq game.home_win 0
    let profit := calculate_payoutN bet_size game.away_odds won
    let bankroll2 := nanAdd bankroll profit
    (some { game_id := game.game_id.getD (idx : ℚ), bet_on := "away",
            edge := edge_away,
            model_prob := nanSub (some 1) game.model_prob_home,
            market_prob := nanSub (some 1) game.market_prob_home,
            odds := game.away_odds, bet_size := bet_size,
            outcome := if nanPos profit then "win" else "loss",
            profit := profit, cumulative_profit := bankroll2 }, bankroll2)
  else
    (none, bankroll)

/-- The per-game loop of the threshold simulator over rows with
possibly-`NaN` fields. -/
def simulate_threshold_goN (edge_threshold bet_size : ℚ) :
    List NanGame → ℕ → Option ℚ → List NanBet × Option ℚ
  | [], _, bankroll => ([], bankroll)
  | game :: rest, idx, bankroll =>
    match thresholdStepN edge_threshold bet_size idx bankroll game with
    | (some r, bankroll2) =>
      let tail := simulate_threshold_goN edge_threshold bet_size rest (idx + 1) bankroll2
      (r :: tail.1, tail.2)
    | (none, bankroll2) =>
      simulate_threshold_goN edge_threshold bet_size rest (idx + 1) bankroll2

/-- `simulate_threshold_betting` over rows with possibly-`NaN` fields;
the bankroll starts at the real number `0.0`. -/
def simulate_threshold_bettingN (games : List NanGame)
    (edge_threshold bet_size : ℚ) :
    List NanBet × Option ℚ :=
  simulate_threshold_goN edge_threshold bet_size games 0 (some 0)

/-- The columns of a bet-ledger `DataFrame` handed to
`calculate_roi_metrics`: one list per column, plus an optional
`cumulative_profit` column (present for threshold ledgers, absent for
Kelly ledgers). -/
structure Ledger where
  bet_sizes : List ℚ
  profits : List ℚ
  outcomes : List String
  cumulative_profit : Option (List ℚ)
deriving Repr, DecidableEq

/-- Embeds pandas `.cumsum()`: running sums of a column. -/
def cumsum (xs : List ℚ) : List ℚ :=
  (xs.scanl (· + ·) 0).tail

/-- Embeds `np.maximum.accumulate`: running maxima of a column. -/
def runningMax : List ℚ → List ℚ
  | [] => []
  | x :: xs => xs.scanl max x

/-- Embeds `.max()` of a nonempty numpy array (the value for `[]` is
irrelevant: `calculate_roi_metrics` only reaches it on nonempty
ledgers). -/
def listMax : List ℚ → ℚ
  | [] => 0
  | x :: xs => xs.foldl max x

/-- Embeds the `max_drawdown` entry of `calculate_roi_metrics`
(betting.py lines 320–330 and 355–359): an empty ledger reports `0.0`;
otherwise the cumulative profit is the `cumulative_profit` column when
present, else the running sum of `profit`, and the drawdown is the
running maximum minus the current value.  The other entries of the
metrics dict need real-valued square roots and are not used by any
claim. -/
def calculate_roi_metrics_max_drawdown (bets : Ledger) : ℚ :=
  if bets.profits.length = 0 then 0
  else
    let cumulative :=
      match bets.cumulative_profit with
      | some c => c
      | none => cumsum bets.profits
    let running := runningMax cumulative
    let drawdown := List.zipWith (fun a b => a - b) running cumulative
    listMax drawdown

/-- The Bet Record the threshold simulator emits for `scenarioGame` at
`edge_threshold = 0.05`, `bet_size = 100`. -/
def scenarioBet : ThresholdBet :=
  { game_id := 0, bet_on := "home", edge := 3/25, model_prob := 7/10,
    market_prob := 29/50, odds := -150, bet_size := 100, outcome := "win",
    profit := 200/3, cumulative_profit := 200/3 }

/-- The ledger row the threshold simulator emits for `scenarioGame` when
the configured stake is `0`: the zero-sized bet is not suppressed. -/
def zeroBet : ThresholdBet :=
  { game_id := 0, bet_on := "home", edge := 3/25, model_prob := 7/10,
    market_prob := 29/50, odds := -150, bet_size := 0, outcome := "loss",
    profit := 0, cumulative_profit := 0 }

/-- A game on which the Kelly simulator stakes its entire doubled
bankroll and loses: the model is certain of a home win
(`model_prob_home = 1`, full-Kelly fraction 1) but home loses. -/
def ruinGame1 : Game :=
  { game_id := none, home_odds := -110, away_odds := 130,
    model_prob_home := 1, market_prob_home := 1/2, home_win := 0 }

/-- A second, ordinary game (positive home edge) placed after
`ruinGame1` so the run continues past the point where the bankroll went
negative. -/
def ruinGame2 : Game :=
  { game_id := none, home_odds := -110, away_odds := 130,
    model_prob_home := 3/5, market_prob_home := 1/2, home_win := 1 }

/-- The Bet Record the Kelly simulator emits for `ruinGame1` at
`kelly_fraction = 2`, `starting_bankroll = 10000`: a 20000 stake lost,
leaving the bankroll at −10000. -/
def ruinBet1 : KellyBet :=
  { game_id := 0, bet_on := "home", edge := 1/2, model_prob := 1,
    market_prob := 1/2, odds := -110, bet_size := 20000, outcome := "loss",
    profit := -20000, bankroll := -10000, roi := -200 }

/-- A game with a positive home edge whose quarter-Kelly stake from a
10000 bankroll is exactly 400. -/
def kellyGame : Game :=
  { game_id := none, home_odds := -110, away_odds := 130,
    model_prob_home := 3/5, market_prob_home := 1/2, home_win := 1 }

/-- The Bet Record the Kelly simulator emits for `kellyGame` at
`kelly_fraction = 1/4`, `starting_bankroll = 10000`. -/
def kellyBet1 : KellyBet :=
  { game_id := 0, bet_on := "home", edge := 1/10, model_prob := 3/5,
    market_prob := 1/2, odds := -110, bet_size := 400, outcome := "win",
    profit := 4000/11, bankroll := 114000/11, roi := 40/11 }

/-- `kellyGame` seen from a bankroll of 1: the home edge is positive but
the quarter-Kelly stake is 1/25, below the $1 floor. -/
def minBetGame : Game :=
  { game_id := none, home_odds := -110, away_odds := 130,
    model_prob_home := 3/5, market_prob_home := 1/2, home_win := 1 }

/-- A malformed Game-Odds Record: its `model_prob_home` value is
missing, i.e. `NaN` in the `DataFrame` row. -/
def badGameN : NanGame :=
  { game_id := none, home_odds := some (-150), away_odds := some 130,
    model_prob_home := none, market_prob_home := some (58/100),
    home_win := some 1 }

/-- `scenarioGame` as a fully populated row of the possibly-`NaN`
embedding. -/
def goodGameN : NanGame :=
  { game_id := none, home_odds := some (-150), away_odds := some 130,
    model_prob_home := some (7/10), market_prob_home := some (58/100),
    home_win := some 1 }

/-- The Bet Record the threshold simulator emits for `goodGameN` when it
is the second row (index 1) of the input, at `edge_threshold = 0.05`,
`bet_size = 100`. -/
def goodBetN : NanBet :=
  { game_id := 1, bet_on := "home", edge := some (3/25),
    model_prob := some (7/10), market_prob := some (29/50),
    odds := some (-150), bet_size := 100, outcome := "win",
    profit := some (200/3), cumulative_profit := some (200/3) }

/-- A four-bet ledger whose `cumulative_profit` column is
`[50, 100, 40, 80]`. -/
def ledgerWithColumn : Ledger :=
  { bet_sizes := [100, 100, 100, 100], profits := [50, 50, -60, 40],
    outcomes := ["win", "win", "loss", "win"],
    cumulative_profit := some [50, 100, 40, 80] }

/-- The same four bets without a `cumulative_profit` column (as a Kelly
ledger would be), so the metrics recompute the running sum of
`profit`. -/
def ledgerNoColumn : Ledger :=
  { bet_sizes := [100, 100, 100, 100], profits := [50, 50, -60, 40],
    outcomes := ["win", "win", "loss", "win"],
    cumulative_profit := none }

/-- The single Game-Odds Record of the end-to-end scenario of §8.7 of the
spec. -/
def scenarioGame : Game :=
  { game_id := none, home_odds := -150, away_odds := 130,
    model_prob_home := 7/10, market_prob_home := 58/100, home_win := 1 }

/-- C1 (counterexample): the claim says `american_to_probability` must
fail at `odds = 0`; in fact it succeeds there — even with the Python
exception flow made explicit it returns the implied probability `1`. -/
theorem claim1_counterexample :
    american_to_probabilityE 0 = Except.ok 1 ∧ american_to_probability 0 = 1 := by
  constructor
  · norm_num [american_to_probabilityE, divE]
  · norm_num [american_to_probability]

/-- C1 (amended): `american_to_probability(0)` does not fail and is not
undefined: odds `0` takes the non-negative branch and returns
`100 / (0 + 100) = 1`, an implied probability, so callers wanting zero
odds rejected must reject them before calling. -/
theorem claim1_theorem :
    american_to_probability 0 = 100 / (0 + 100) ∧
    american_to_probabilityE 0 = Except.ok (100 / (0 + 100)) := by
  constructor
  · norm_num [american_to_probability]
  · norm_num [american_to_probabilityE, divE]

/-- C2 (counterexample): the won-payout is not strictly positive for
every stake `S ≥ 0` and every odds `O`: it is `0` at stake `0`, and `0`
at odds `0` even for a positive stake. -/
theorem claim2_counterexample :
    calculate_payout 0 (-150) true = 0 ∧ calculate_payout 100 0 true = 0 := by
  constructor <;> norm_num [calculate_payout]

/-- C2 (amended): `calculate_payout(S, O, won=False) = -S` for every
stake and odds; `calculate_payout(S, O, won=True)` is strictly positive
for every stake `S > 0` and odds `O ≠ 0` (at `S = 0` or `O = 0` the
won-payout is `0`, not positive). -/
theorem claim2_theorem :
    (∀ S O : ℚ, calculate_payout S O false = -S) ∧
    (∀ S O : ℚ, 0 < S → O ≠ 0 → 0 < calculate_payout S O true) := by
  constructor
  · intro S O
    simp [calculate_payout]
  · intro S O hS hO
    simp only [calculate_payout, Bool.not_true, Bool.false_eq_true, if_false]
    split_ifs with h
    · have habs : (0:ℚ) < |O| := abs_pos.mpr hO
      have : (0:ℚ) < 100 / |O| := by positivity
      exact mul_pos hS this
    · have h0 : 0 ≤ O := not_lt.mp h
      have hpos : 0 < O := lt_of_le_of_ne h0 (Ne.symm hO)
      have : (0:ℚ) < O / 100 := by positivity
      exact mul_pos hS this

/-- C2 (witness): the amended theorem at stake 100 and odds −150. -/
theorem claim2_witness :
    calculate_payout 100 (-150) false = -100 ∧
    0 < calculate_payout 100 (-150) true :=
  ⟨claim2_theorem.1 100 (-150),
   claim2_theorem.2 100 (-150) (by norm_num) (by norm_num)⟩

/-- C7: on the single-game input with home odds −150, away odds +130,
model probability 0.70, market probability 0.58 and a home win, the
threshold simulator at `edge_threshold = 0.05`, `bet_size = 100` places
exactly one bet, on home (edge `0.12 ≥ 0.05`), wins it, and both the
bet's profit and the returned final bankroll are `100 * (100/150)`
(= 200/3 ≈ 66.67). -/
theorem claim7_theorem :
    simulate_threshold_betting [scenarioGame] (5/100) 100 = ([scenarioBet], 200/3) ∧
    scenarioBet.bet_on = "home" ∧
    scenarioBet.edge = 12/100 ∧ (5/100 : ℚ) ≤ scenarioBet.edge ∧
    scenarioBet.outcome = "win" ∧
    scenarioBet.profit = 100 * (100/150) ∧ (200/3 : ℚ) = 100 * (100/150) := by
  refine ⟨?_, ?_, ?_, ?_, ?_, ?_, ?_⟩
  · norm_num [simulate_threshold_betting, simulate_threshold_go, thresholdStep,
      calculate_payout, scenarioGame, scenarioBet, Option.getD, beq_iff_eq]
  all_goals norm_num [scenarioBet]

/-- C8: the `max_drawdown` of `calculate_roi_metrics` equals the maximum
of running-maximum-minus-current over the cumulative profit, taken from
the `cumulative_profit` column when present and from the running sum of
`profit` otherwise; on the cumulative profit sequence `[50, 100, 40, 80]`
(either way supplied) it is `60`. -/
theorem claim8_theorem :
    calculate_roi_metrics_max_drawdown ledgerWithColumn = 60 ∧
    calculate_roi_metrics_max_drawdown ledgerNoColumn = 60 ∧
    ledgerWithColumn.cumulative_profit = some [50, 100, 40, 80] ∧
    ledgerNoColumn.cumulative_profit = none ∧
    cumsum ledgerNoColumn.profits = [50, 100, 40, 80] ∧
    runningMax [50, 100, 40, 80] = [50, 100, 100, 100] := by
  refine ⟨?_, ?_, ?_, ?_, ?_, ?_⟩
  · norm_num [calculate_roi_metrics_max_drawdown, ledgerWithColumn, runningMax,
      listMax, List.scanl, List.zipWith]
  · norm_num [calculate_roi_metrics_max_drawdown, ledgerNoColumn, cumsum, runningMax,
      listMax, List.scanl, List.zipWith]
  · norm_num [ledgerWithColumn]
  · norm_num [ledgerNoColumn]
  · norm_num [cumsum, ledgerNoColumn, List.scanl]
  · norm_num [runningMax, List.scanl]

/-- C9: for positive raw probabilities, the two components returned by
`remove_vig_proportional` sum to exactly 1 (exactly, in exact rational
arithmetic). -/
theorem claim9_theorem (prob_home prob_away : ℚ)
    (h1 : 0 < prob_home) (h2 : 0 < prob_away) :
    (remove_vig_proportional prob_home prob_away).1 +
      (remove_vig_proportional prob_home prob_away).2 = 1 := by
  have h : prob_home + prob_away ≠ 0 := by positivity
  show prob_home / (prob_home + prob_away) + prob_away / (prob_home + prob_away) = 1
  rw [div_add_div_same, div_self h]

/-- C9 (witness): the vig-removal round-trip at raw probabilities 0.6
and 0.5. -/
theorem claim9_witness :
    (remove_vig_proportional (3/5) (1/2)).1 +
      (remove_vig_proportional (3/5) (1/2)).2 = 1 :=
  claim9_theorem (3/5) (1/2) (by norm_num) (by norm_num)

/-- Any Bet Record produced by one threshold step satisfies the
profit/outcome equivalence and carries exactly the configured stake. -/
theorem thresholdStep_some_spec (et bs : ℚ) (idx : ℕ) (b : ℚ) (g : Game)
    (r : ThresholdBet) (b2 : ℚ)
    (h : thresholdStep et bs idx b g = (some r, b2)) :
    (0 < r.profit ↔ r.outcome = "win") ∧ r.bet_size = bs := by
  simp only [thresholdStep] at h
  split_ifs at h <;>
    (injection h with ha hb) <;>
    first
      | exact Option.noConfusion ha
      | (injection ha with ha; subst ha; exact ⟨by simp_all, rfl⟩)

/-- Any Bet Record produced by one Kelly step satisfies the
profit/outcome equivalence and a stake of at least the $1 floor. -/
theorem kellyStep_some_spec (kf sb : ℚ) (idx : ℕ) (b : ℚ) (g : Game)
    (r : KellyBet) (b2 : ℚ)
    (h : kellyStep kf sb idx b g = (some r, b2)) :
    (0 < r.profit ↔ r.outcome = "win") ∧ 1 ≤ r.bet_size := by
  simp only [kellyStep] at h
  split_ifs at h <;>
    (injection h with ha hb) <;>
    first
      | exact Option.noConfusion ha
      | (injection ha with ha; subst ha; exact ⟨by simp_all, by assumption⟩)

/-- Every record of a threshold run satisfies the step-level record
invariant. -/
theorem threshold_go_mem (et bs : ℚ) :
    ∀ (games : List Game) (idx : ℕ) (b : ℚ) (r : ThresholdBet),
      r ∈ (simulate_threshold_go et bs games idx b).1 →
      (0 < r.profit ↔ r.outcome = "win") ∧ r.bet_size = bs := by
  intro games
  induction games with
  | nil =>
    intro idx b r hr
    simp [simulate_threshold_go] at hr
  | cons g rest ih =>
    intro idx b r hr
    rcases hstep : thresholdStep et bs idx b g with ⟨o, b2⟩
    cases o with
    | none =>
      simp only [simulate_threshold_go, hstep] at hr
      exact ih (idx + 1) b2 r hr
    | some r0 =>
      simp [simulate_threshold_go, hstep] at hr
      rcases hr with rfl | hr
      · exact thresholdStep_some_spec et bs idx b g r b2 hstep
      · exact ih (idx + 1) b2 r hr

/-- Every record of a Kelly run satisfies the step-level record
invariant. -/
theorem kelly_go_mem (kf sb : ℚ) :
    ∀ (games : List Game) (idx : ℕ) (b : ℚ) (r : KellyBet),
      r ∈ (simulate_kelly_go kf sb games idx b).1 →
      (0 < r.profit ↔ r.outcome = "win") ∧ 1 ≤ r.bet_size := by
  intro games
  induction games with
  | nil =>
    intro idx b r hr
    simp [simulate_kelly_go] at hr
  | cons g rest ih =>
    intro idx b r hr
    rcases hstep : kellyStep kf sb idx b g with ⟨o, b2⟩
    cases o with
    | none =>
      simp only [simulate_kelly_go, hstep] at hr
      exact ih (idx + 1) b2 r hr
    | some r0 =>
      simp [simulate_kelly_go, hstep] at hr
      rcases hr with rfl | hr
      · exact kellyStep_some_spec kf sb idx b g r b2 hstep
      · exact ih (idx + 1) b2 r hr

/-- C3 (counterexample): the claim says a zero-or-negative sizing is
suppressed rather than producing a ledger row; with a configured stake
of `0` the threshold simulator nevertheless emits a Bet Record whose
`bet_size` is `0` (and not `> 0`). -/
theorem claim3_counterexample :
    simulate_threshold_betting [scenarioGame] (5/100) 0 = ([zeroBet], 0) ∧
    zeroBet.bet_size = 0 := by
  constructor
  · norm_num [simulate_threshold_betting, simulate_threshold_go, thresholdStep,
      calculate_payout, scenarioGame, zeroBet, Option.getD, beq_iff_eq]
  · rfl

/-- C3 (amended): for every Bet Record emitted by either simulator,
`profit > 0` iff `outcome == "win"`.  Every Kelly record has
`bet_size > 0` (indeed `≥ 1`, the minimum-bet floor); a threshold record
carries exactly the configured stake, so its `bet_size` is positive
whenever the configured stake is — the threshold simulator does not
suppress a zero-or-negative configured stake. -/
theorem claim3_theorem :
    (∀ (games : List Game) (et bs : ℚ), 0 < bs →
        ∀ r ∈ (simulate_threshold_betting games et bs).1,
          (0 < r.profit ↔ r.outcome = "win") ∧ 0 < r.bet_size) ∧
    (∀ (games : List Game) (kf sb : ℚ),
        ∀ r ∈ (simulate_kelly_betting games kf sb).1,
          (0 < r.profit ↔ r.outcome = "win") ∧ 0 < r.bet_size) := by
  constructor
  · intro games et bs hbs r hr
    have h := threshold_go_mem et bs games 0 0 r hr
    exact ⟨h.1, h.2 ▸ hbs⟩
  · intro games kf sb r hr
    have h := kelly_go_mem kf sb games 0 sb r hr
    exact ⟨h.1, lt_of_lt_of_le one_pos h.2⟩

/-- C3 (witness): the amended theorem applied to the concrete threshold
run over `scenarioGame` and the concrete Kelly run over `kellyGame`. -/
theorem claim3_witness :
    ((0 < scenarioBet.profit ↔ scenarioBet.outcome = "win") ∧ 0 < scenarioBet.bet_size) ∧
    ((0 < kellyBet1.profit ↔ kellyBet1.outcome = "win") ∧ 0 < kellyBet1.bet_size) :=
  ⟨claim3_theorem.1 [scenarioGame] (5/100) 100 (by norm_num) scenarioBet
    (by norm_num [simulate_threshold_betting, simulate_threshold_go, thresholdStep,
      calculate_payout, scenarioGame, scenarioBet, Option.getD, beq_iff_eq]),
   claim3_theorem.2 [kellyGame] (1/4) 10000 kellyBet1
    (by norm_num [simulate_kelly_betting, simulate_kelly_go, kellyStep, kelly_criterion,
      calculate_payout, kellyGame, kellyBet1, Option.getD, beq_iff_eq])⟩

/-- A Kelly run over a concatenation is the run over the first part
followed by the run over the second part, resumed at the first part's
final bankroll and row index: the simulator processes every game in
input order and never halts early. -/
theorem kelly_go_append (kf sb : ℚ) (gs1 gs2 : List Game) :
    ∀ (idx : ℕ) (b : ℚ),
      simulate_kelly_go kf sb (gs1 ++ gs2) idx b =
        ((simulate_kelly_go kf sb gs1 idx b).1 ++
           (simulate_kelly_go kf sb gs2 (idx + gs1.length)
             (simulate_kelly_go kf sb gs1 idx b).2).1,
         (simulate_kelly_go kf sb gs2 (idx + gs1.length)
           (simulate_kelly_go kf sb gs1 idx b).2).2) := by
  induction gs1 with
  | nil =>
    intro idx b
    simp [simulate_kelly_go]
  | cons g rest ih =>
    intro idx b
    have hn : idx + (g :: rest).length = (idx + 1) + rest.length := by
      simp [List.length_cons]
      omega
    rcases hstep : kellyStep kf sb idx b g with ⟨o, b2⟩
    cases o with
    | none =>
      simp only [List.cons_append, simulate_kelly_go, hstep, hn]
      exact ih (idx + 1) b2
    | some r0 =>
      simp only [List.cons_append, simulate_kelly_go, hstep, hn]
      rw [List.append_eq, ih (idx + 1) b2]

/-- C4: the Kelly simulator neither clamps nor halts.  First conjunct:
a run over `gs1 ++ gs2` is the run over `gs1` continued over `gs2` from
the reached bankroll — every game is processed in order regardless of
the bankroll's value.  Second conjunct: a step changes the bankroll
exactly by the placed bet's realized profit (and not at all when no bet
is placed).  Third conjunct: a concrete two-game run whose bankroll is
−10000 after the first game, yet the run completes over the full
sequence and returns that bankroll. -/
theorem claim4_theorem :
    (∀ (kf sb : ℚ) (gs1 gs2 : List Game) (idx : ℕ) (b : ℚ),
        simulate_kelly_go kf sb (gs1 ++ gs2) idx b =
          ((simulate_kelly_go kf sb gs1 idx b).1 ++
             (simulate_kelly_go kf sb gs2 (idx + gs1.length)
               (simulate_kelly_go kf sb gs1 idx b).2).1,
           (simulate_kelly_go kf sb gs2 (idx + gs1.length)
             (simulate_kelly_go kf sb gs1 idx b).2).2)) ∧
    (∀ (kf sb : ℚ) (idx : ℕ) (b : ℚ) (g : Game),
        (kellyStep kf sb idx b g).2 =
          b + ((kellyStep kf sb idx b g).1.map KellyBet.profit).getD 0) ∧
    ((simulate_kelly_go 2 10000 [ruinGame1] 0 10000).2 = -10000 ∧
      (-10000 : ℚ) < 0 ∧
      simulate_kelly_betting [ruinGame1, ruinGame2] 2 10000 = ([ruinBet1], -10000)) := by
  refine ⟨fun kf sb gs1 gs2 idx b => kelly_go_append kf sb gs1 gs2 idx b, ?_, ?_, ?_, ?_⟩
  · intro kf sb idx b g
    simp only [kellyStep]
    split_ifs <;> simp
  · norm_num [simulate_kelly_go, kellyStep, kelly_criterion, calculate_payout,
      ruinGame1, Option.getD, beq_iff_eq]
  · norm_num
  · norm_num [simulate_kelly_betting, simulate_kelly_go, kellyStep, kelly_criterion,
      calculate_payout, ruinGame1, ruinGame2, ruinBet1, Option.getD, beq_iff_eq]

/-- C5: in the Kelly simulator, a game whose chosen side (home first,
else away) has strictly positive edge but whose computed stake
`bankroll * kelly_criterion * kelly_fraction` is below the 1.0
minimum-bet floor produces no Bet Record and leaves the bankroll — and
therefore the whole remaining run — exactly unchanged. -/
theorem claim5_theorem (g : Game) (rest : List Game) (kf sb : ℚ) (idx : ℕ) (b : ℚ)
    (h : (0 < g.model_prob_home - g.market_prob_home ∧
            b * kelly_criterion g.model_prob_home g.home_odds * kf < 1) ∨
         (¬ 0 < g.model_prob_home - g.market_prob_home ∧
            0 < (1 - g.model_prob_home) - (1 - g.market_prob_home) ∧
            b * kelly_criterion (1 - g.model_prob_home) g.away_odds * kf < 1)) :
    kellyStep kf sb idx b g = (none, b) ∧
    simulate_kelly_go kf sb (g :: rest) idx b =
      simulate_kelly_go kf sb rest (idx + 1) b := by
  have hstep : kellyStep kf sb idx b g = (none, b) := by
    simp only [kellyStep]
    rcases h with ⟨h1, h2⟩ | ⟨h1, h2, h3⟩
    · rw [if_pos h1, if_neg (not_le.mpr h2)]
    · rw [if_neg h1, if_pos h2, if_neg (not_le.mpr h3)]
  refine ⟨hstep, ?_⟩
  simp only [simulate_kelly_go, hstep]

/-- C5 (witness): `minBetGame` from a bankroll of 1 at quarter Kelly has
home edge `0.1 > 0` but stake `1/25 < 1`: no record, bankroll
unchanged. -/
theorem claim5_witness :
    kellyStep (1/4) 1 0 1 minBetGame = (none, 1) ∧
    simulate_kelly_go (1/4) 1 [minBetGame] 0 1 =
      simulate_kelly_go (1/4) 1 [] (0 + 1) 1 :=
  claim5_theorem minBetGame [] (1/4) 1 0 1
    (Or.inl ⟨by norm_num [minBetGame],
             by norm_num [minBetGame, kelly_criterion]⟩)

/-- C6 (counterexample): the claim is false on both of its failure-mode
assertions.  A record with a missing `model_prob_home` is skipped with
no reported reason of any kind: the run over `[badGameN, goodGameN]`
returns an ordinary one-bet ledger — exactly `goodGameN`'s bet — with
nothing recording that the first game failed.  And an input in which
every game is malformed does not surface as a top-level failure: it
returns an ordinary empty ledger with final bankroll `0`. -/
theorem claim6_counterexample :
    simulate_threshold_bettingN [badGameN, goodGameN] (5/100) 100 =
      ([goodBetN], some (200/3)) ∧
    simulate_threshold_bettingN [badGameN, badGameN] (5/100) 100 =
      ([], some 0) := by
  constructor
  · norm_num [simulate_threshold_bettingN, simulate_threshold_goN, thresholdStepN,
      nanSub, nanAdd, nanGe, nanEq, nanPos, calculate_payoutN, badGameN, goodGameN,
      goodBetN, Option.getD, beq_iff_eq]
  · norm_num [simulate_threshold_bettingN, simulate_threshold_goN, thresholdStepN,
      nanSub, nanGe, badGameN]

/-- C6 (amended): a Game-Odds Record whose `model_prob_home` or
`market_prob_home` value is missing (`NaN` in its `DataFrame` row) is
silently skipped: both edge comparisons evaluate false, so the step
emits no Bet Record, reports no reason, and leaves the bankroll — and
therefore the rest of the ledger — exactly as if the run resumed past
that game. -/
theorem claim6_theorem (g : NanGame) (rest : List NanGame) (et bs : ℚ)
    (idx : ℕ) (b : Option ℚ)
    (h : g.model_prob_home = none ∨ g.market_prob_home = none) :
    thresholdStepN et bs idx b g = (none, b) ∧
    simulate_threshold_goN et bs (g :: rest) idx b =
      simulate_threshold_goN et bs rest (idx + 1) b := by
  have hstep : thresholdStepN et bs idx b g = (none, b) := by
    rcases h with h | h
    · simp [thresholdStepN, nanSub, nanGe, h]
    · rcases hm : g.model_prob_home with _ | v <;>
        simp [thresholdStepN, nanSub, nanGe, h, hm]
  refine ⟨hstep, ?_⟩
  simp only [simulate_threshold_goN, hstep]

/-- C6 (witness): the amended theorem at `badGameN` followed by a
well-formed, bettable game. -/
theorem claim6_witness :
    thresholdStepN (5/100) 100 0 (some 0) badGameN = (none, some 0) ∧
    simulate_threshold_goN (5/100) 100 [badGameN, goodGameN] 0 (some 0) =
      simulate_threshold_goN (5/100) 100 [goodGameN] (0 + 1) (some 0) :=
  claim6_theorem badGameN [goodGameN] (5/100) 100 0 (some 0) (Or.inl rfl)

/-- The Kelly fraction is floored at zero. -/
theorem kelly_criterion_nonneg (p o : ℚ) : 0 ≤ kelly_criterion p o :=
  le_max_left 0 _

/-- For a win probability at most 1, the Kelly fraction is at most 1:
`(p*b - q)/b = p - q/b ≤ p` whenever the net odds `b` are positive, and
the degenerate `b = 0` case (odds exactly 0) yields 0 under rational
division-by-zero semantics. -/
theorem kelly_criterion_le_one (p o : ℚ) (hp : p ≤ 1) : kelly_criterion p o ≤ 1 := by
  simp only [kelly_criterion]
  set b : ℚ := (if o < 0 then 1 + 100 / |o| else 1 + o / 100) - 1 with hbdef
  have hb0 : 0 ≤ b := by
    rw [hbdef]
    split_ifs with h
    · have habs : (0:ℚ) < |o| := abs_pos.mpr (ne_of_lt h)
      have : (0:ℚ) ≤ 100 / |o| := by positivity
      linarith
    · have h2 : (0:ℚ) ≤ o := not_lt.mp h
      have : (0:ℚ) ≤ o / 100 := by positivity
      linarith
  rcases eq_or_lt_of_le hb0 with hbz | hbpos
  · rw [← hbz]
    simp
  · have hle : (p * b - (1 - p)) / b ≤ p := by
      rw [div_le_iff₀ hbpos]
      nlinarith
    exact max_le (by norm_num) (le_trans hle hp)

/-- A lost bet returns the negated stake. -/
theorem calculate_payout_lost (s o : ℚ) : calculate_payout s o false = -s := by
  simp [calculate_payout]

/-- A won bet with a non-negative stake never loses money. -/
theorem calculate_payout_won_nonneg (s o : ℚ) (hs : 0 ≤ s) :
    0 ≤ calculate_payout s o true := by
  simp only [calculate_payout, Bool.not_true, Bool.false_eq_true, if_false]
  split_ifs with h
  · have : (0:ℚ) ≤ 100 / |o| := by positivity
    exact mul_nonneg hs this
  · have h0 : (0:ℚ) ≤ o := not_lt.mp h
    have : (0:ℚ) ≤ o / 100 := by positivity
    exact mul_nonneg hs this

/-- One Kelly step from a non-negative bankroll, with `kelly_fraction`
in `[0,1]` and a home-win model probability in `[0,1]`, keeps the
bankroll non-negative (the stake never exceeds the bankroll) and any
emitted record's `bankroll` field equals the new, non-negative
bankroll. -/
theorem kellyStep_nonneg (kf sb : ℚ) (idx : ℕ) (b : ℚ) (g : Game)
    (hkf0 : 0 ≤ kf) (hkf1 : kf ≤ 1) (hb : 0 ≤ b)
    (hp0 : 0 ≤ g.model_prob_home) (hp1 : g.model_prob_home ≤ 1) :
    0 ≤ (kellyStep kf sb idx b g).2 ∧
    ∀ r, (kellyStep kf sb idx b g).1 = some r → 0 ≤ r.bankroll := by
  have stake_bounds : ∀ p o : ℚ, p ≤ 1 →
      0 ≤ b * kelly_criterion p o * kf ∧ b * kelly_criterion p o * kf ≤ b := by
    intro p o hp
    have hk0 := kelly_criterion_nonneg p o
    have hk1 := kelly_criterion_le_one p o hp
    constructor
    · exact mul_nonneg (mul_nonneg hb hk0) hkf0
    · calc b * kelly_criterion p o * kf = b * (kelly_criterion p o * kf) := by ring
        _ ≤ b * 1 := by
            exact mul_le_mul_of_nonneg_left (mul_le_one₀ hk1 hkf0 hkf1) hb
        _ = b := mul_one b
  have settle : ∀ (stake o : ℚ) (w : Bool), 0 ≤ stake → stake ≤ b →
      0 ≤ b + calculate_payout stake o w := by
    intro stake o w h0 h1
    cases w with
    | false =>
      rw [calculate_payout_lost]
      linarith
    | true =>
      have := calculate_payout_won_nonneg stake o h0
      linarith
  have hq1 : 1 - g.model_prob_home ≤ 1 := by linarith
  simp only [kellyStep]
  split_ifs
  · have hs := stake_bounds g.model_prob_home g.home_odds hp1
    refine ⟨settle _ _ _ hs.1 hs.2, fun r hr => ?_⟩
    injection hr with hr
    subst hr
    exact settle _ _ _ hs.1 hs.2
  · have hs := stake_bounds g.model_prob_home g.home_odds hp1
    refine ⟨settle _ _ _ hs.1 hs.2, fun r hr => ?_⟩
    injection hr with hr
    subst hr
    exact settle _ _ _ hs.1 hs.2
  · exact ⟨hb, fun r hr => hr.elim⟩
  · exact ⟨hb, fun r hr => hr.elim⟩
  · have hs := stake_bounds (1 - g.model_prob_home) g.away_odds hq1
    refine ⟨settle _ _ _ hs.1 hs.2, fun r hr => ?_⟩
    injection hr with hr
    subst hr
    exact settle _ _ _ hs.1 hs.2
  · have hs := stake_bounds (1 - g.model_prob_home) g.away_odds hq1
    refine ⟨settle _ _ _ hs.1 hs.2, fun r hr => ?_⟩
    injection hr with hr
    subst hr
    exact settle _ _ _ hs.1 hs.2
  · exact ⟨hb, fun r hr => hr.elim⟩
  · exact ⟨hb, fun r hr => hr.elim⟩
  · exact ⟨hb, fun r hr => hr.elim⟩

/-- A whole Kelly run from a non-negative bankroll, with
`kelly_fraction` in `[0,1]` and all home-win model probabilities in
`[0,1]`, keeps the final bankroll and every recorded bankroll
non-negative. -/
theorem kelly_go_nonneg (kf sb : ℚ) (hkf0 : 0 ≤ kf) (hkf1 : kf ≤ 1) :
    ∀ (games : List Game) (idx : ℕ) (b : ℚ), 0 ≤ b →
      (∀ g ∈ games, 0 ≤ g.model_prob_home ∧ g.model_prob_home ≤ 1) →
      0 ≤ (simulate_kelly_go kf sb games idx b).2 ∧
      ∀ r ∈ (simulate_kelly_go kf sb games idx b).1, 0 ≤ r.bankroll := by
  intro games
  induction games with
  | nil =>
    intro idx b hb _
    simpa [simulate_kelly_go] using hb
  | cons g rest ih =>
    intro idx b hb hgames
    have hg := hgames g (List.mem_cons_self g rest)
    have hstep := kellyStep_nonneg kf sb idx b g hkf0 hkf1 hb hg.1 hg.2
    have hrest0 : ∀ g' ∈ rest, 0 ≤ g'.model_prob_home ∧ g'.model_prob_home ≤ 1 :=
      fun g' hg' => hgames g' (List.mem_cons_of_mem g hg')
    rcases hstepeq : kellyStep kf sb idx b g with ⟨o, b2⟩
    rw [hstepeq] at hstep
    have hb2 : 0 ≤ b2 := hstep.1
    have hrest := ih (idx + 1) b2 hb2 hrest0
    cases o with
    | none =>
      simp only [simulate_kelly_go, hstepeq]
      exact hrest
    | some r0 =>
      have hr0 : 0 ≤ r0.bankroll := hstep.2 r0 rfl
      simp only [simulate_kelly_go, hstepeq]
      refine ⟨hrest.1, ?_⟩
      intro r hr
      rcases List.mem_cons.mp hr with rfl | hr
      · exact hr0
      · exact hrest.2 r hr

/-- C10: with `kelly_fraction` in `[0,1]`, a non-negative starting
bankroll, and every game's `model_prob_home` in `[0,1]`, the Kelly
simulator's bankroll is never negative at any point of the run: the
Kelly fraction is at most the win probability, hence at most 1, so every
placed stake is at most the current bankroll, and even a lost bet
subtracts at most the full bankroll. -/
theorem claim10_theorem (games : List Game) (kf sb : ℚ)
    (hkf0 : 0 ≤ kf) (hkf1 : kf ≤ 1) (hsb : 0 ≤ sb)
    (hprobs : ∀ g ∈ games, 0 ≤ g.model_prob_home ∧ g.model_prob_home ≤ 1) :
    0 ≤ (simulate_kelly_betting games kf sb).2 ∧
    ∀ r ∈ (simulate_kelly_betting games kf sb).1, 0 ≤ r.bankroll :=
  kelly_go_nonneg kf sb hkf0 hkf1 games 0 sb hsb hprobs

/-- C10 (witness): the invariant at the concrete one-game quarter-Kelly
run over `kellyGame`. -/
theorem claim10_witness :
    0 ≤ (simulate_kelly_betting [kellyGame] (1/4) 10000).2 ∧ 0 ≤ kellyBet1.bankroll :=
  have h := claim10_theorem [kellyGame] (1/4) 10000 (by norm_num) (by norm_num)
    (by norm_num)
    (by
      intro g hg
      rcases List.mem_singleton.mp hg with rfl
      constructor <;> norm_num [kellyGame])
  ⟨h.1, h.2 kellyBet1
    (by norm_num [simulate_kelly_betting, simulate_kelly_go, kellyStep, kelly_criterion,
      calculate_payout, kellyGame, kellyBet1, Option.getD, beq_iff_eq])⟩

end NhlBetting
